import Mathlib

/-!
Verification of `neptune/population_tools.py`: a shallow embedding of the
loader, the per-creature field extractors, and the dataframe assembly, with
theorems settling the behavioural claims about them.

Modelling conventions:
* JSON values (the result of `json.load`) are the inductive `Json`; Python's
  `None` is `Json.null`; numbers are rationals (the file never computes with
  them, so int/float distinction is irrelevant).
* Python exceptions are the `PyErr` type; a Python function that can raise is
  embedded as a function into `Except PyErr _`.
* The filesystem is a parameter `FS`: `listing d` is the file-name list
  `next(os.walk(d))[2]` (none when the walk yields nothing), and `read p` is
  the combined result of `gzip.open(p)` + `json.load` (an `.error` covers a
  missing file, corrupt compression and malformed JSON alike).
* `print` diagnostics are modelled only where a claim needs them, as the
  separate pure function `load_population_log`.
* `pd.DataFrame` is modelled as an ordered list of named columns, and
  `pd.DataFrame.append` as row concatenation that aligns columns by name,
  null-filling a column absent on one side (in this file both sides always
  share the same two-column schema).
-/

/-- Python exceptions that the embedded code can raise. -/
inductive PyErr where
  | ioError (msg : String)
  | jsonError (msg : String)
  | keyError (k : String)
  | typeError
  | valueError
  | stopIter
  | nameError (n : String)
deriving DecidableEq

/-- Diagnostic messages printed by the code (only the one a claim is about). -/
inductive LogEvent where
  | loadFailed (path : String) (e : PyErr)
deriving DecidableEq

/-- JSON values, as produced by `json.load`. Object field lists are in parse
order; `json.load` keeps at most one entry per key, so lookups below take the
first match. -/
inductive Json where
  | null
  | bool (b : Bool)
  | num (q : ℚ)
  | str (s : String)
  | arr (xs : List Json)
  | obj (fields : List (String × Json))

/-- Substring test, for Python's `k in s` on strings. -/
def strContains (s k : String) : Bool :=
  (List.range (s.data.length + 1)).any
    (fun i => List.isPrefixOf k.data (s.data.drop i))

/-- Python `==` between a JSON value and a string key (used by `k in list`):
only a string with the same characters compares equal. -/
def eqStr (j : Json) (k : String) : Bool :=
  match j with
  | .str s => s == k
  | _ => false

/-- Python's `k in j` for a string `k`: key membership on a dict, element
membership on a list, substring test on a string, `TypeError` otherwise. -/
def pyIn (k : String) (j : Json) : Except PyErr Bool :=
  match j with
  | .obj fields => .ok (fields.any (fun p => p.1 == k))
  | .arr xs => .ok (xs.any (fun x => eqStr x k))
  | .str s => .ok (strContains s k)
  | _ => .error .typeError

/-- Python's `j[k]` for a string key `k`: dict lookup raising `KeyError` on a
missing key, `TypeError` on a non-dict. -/
def Json.getItem (j : Json) (k : String) : Except PyErr Json :=
  match j with
  | .obj fields =>
    match fields.find? (fun p => p.1 == k) with
    | some p => .ok p.2
    | none => .error (.keyError k)
  | _ => .error .typeError

/-- Python iteration over a value: a list yields its elements, a dict its
keys, a string its characters; anything else raises `TypeError`. -/
def pyIter (j : Json) : Except PyErr (List Json) :=
  match j with
  | .arr xs => .ok xs
  | .obj fields => .ok (fields.map (fun p => Json.str p.1))
  | .str s => .ok (s.toList.map (fun c => Json.str (String.mk [c])))
  | _ => .error .typeError

/-- The filesystem the functions run against. -/
structure FS where
  listing : String → Option (List String)
  read : String → Except PyErr Json

/-- `load_population(path)`: `json.load(gzip.open(path))`, with every failure
caught, logged and replaced by the empty list. Total by construction — no
exception escapes. -/
def load_population (fs : FS) (path : String) : Json :=
  match fs.read path with
  | .ok j => j
  | .error _ => .arr []

/-- What `load_population` prints: one failure diagnostic when the read or the
parse fails, nothing otherwise. -/
def load_population_log (fs : FS) (path : String) : List LogEvent :=
  match fs.read path with
  | .ok _ => []
  | .error e => [.loadFailed path e]

/-- A pandas dataframe: an ordered list of named columns. -/
structure DataFrame where
  cols : List (String × List Json)

/-- The column named `n`, when present. -/
def DataFrame.getCol (df : DataFrame) (n : String) : Option (List Json) :=
  (df.cols.find? (fun p => p.1 == n)).map (fun p => p.2)

/-- The row count: length of the first column. -/
def DataFrame.nrows (df : DataFrame) : Nat :=
  match df.cols with
  | [] => 0
  | (_, c) :: _ => c.length

/-- `pd.DataFrame.append a b`: rows of `a` then rows of `b`; columns aligned
by name, a column missing on one side null-filled there. In this file both
sides always carry the same two columns, so this is plain columnwise
concatenation. -/
def DataFrame.appendDF (a b : DataFrame) : DataFrame :=
  ⟨(a.cols.map (fun p =>
      (p.1, p.2 ++ (match b.getCol p.1 with
                    | some c2 => c2
                    | none => List.replicate b.nrows Json.null))))
   ++ ((b.cols.filter (fun p => (a.getCol p.1).isNone)).map
        (fun p => (p.1, List.replicate a.nrows Json.null ++ p.2)))⟩

/-- `pd.DataFrame(data={n1: c1, n2: c2})`: with equal names the second dict
entry overwrites the first; with distinct names the columns must have equal
length (pandas raises `ValueError` otherwise). -/
def mkDataFrame2 (n1 : String) (c1 : List Json) (n2 : String) (c2 : List Json) :
    Except PyErr DataFrame :=
  if n1 = n2 then .ok ⟨[(n1, c2)]⟩
  else if c1.length = c2.length then .ok ⟨[(n1, c1), (n2, c2)]⟩
  else .error .valueError

/-- `os.path.join(d, f)` for the cases that arise here: an absolute second
part wins, otherwise the parts are joined with exactly one separator. -/
def pyJoin (d f : String) : String :=
  if List.isPrefixOf "/".data f.data then f
  else if d = "" then f
  else if List.isSuffixOf "/".data d.data then d ++ f else d ++ "/" ++ f

/-- `files(directory)`: the names directly inside the directory, joined with
it; `next()` on an exhausted `os.walk` raises `StopIteration`. (The `print`
of the list is omitted: no claim concerns it.) -/
def files (fs : FS) (directory : String) : Except PyErr (List String) :=
  match fs.listing directory with
  | some names => .ok (names.map (fun f => pyJoin directory f))
  | none => .error .stopIter

/-- A Python list comprehension `[f(x) for x in xs]`: elements evaluated left
to right, the first exception propagating. -/
def mapE {α β : Type} (f : α → Except PyErr β) : List α → Except PyErr (List β)
  | [] => .ok []
  | x :: xs =>
    match f x with
    | .error e => .error e
    | .ok y =>
      match mapE f xs with
      | .error e => .error e
      | .ok ys => .ok (y :: ys)

/-- `functools.reduce(f, xs)` with no initial value: `TypeError` on an empty
iterable, otherwise a left fold from the first element. -/
def reduce1 {α : Type} (f : α → α → α) : List α → Except PyErr α
  | [] => .error .typeError
  | x :: xs => .ok (xs.foldl f x)

/-- `fitness_of_creature`: `creature['fitness']['cached_scalar']` when both
`'fitness' in creature` and `'cached_scalar' in creature['fitness']` hold,
`None` otherwise, with Python's evaluation order. -/
def fitness_of_creature (creature : Json) : Except PyErr Json :=
  match pyIn "fitness" creature with
  | .error e => .error e
  | .ok false => .ok Json.null
  | .ok true =>
    match creature.getItem "fitness" with
    | .error e => .error e
    | .ok fv =>
      match pyIn "cached_scalar" fv with
      | .error e => .error e
      | .ok false => .ok Json.null
      | .ok true =>
        match creature.getItem "fitness" with
        | .error e => .error e
        | .ok fv2 => fv2.getItem "cached_scalar"

/-- `generation_of_creature`: the unguarded lookup `creature['generation']`. -/
def generation_of_creature (creature : Json) : Except PyErr Json :=
  creature.getItem "generation"

/-- `creature['fitness']['scores'][leaf]`: the unguarded three-step lookup
shared by the sub-score extractors. -/
def scoreLookup (creature : Json) (leaf : String) : Except PyErr Json :=
  match creature.getItem "fitness" with
  | .error e => .error e
  | .ok fv =>
    match fv.getItem "scores" with
    | .error e => .error e
    | .ok sv => sv.getItem leaf

/-- `mem_write_ratio_of_creature`. -/
def mem_write_ratio_of_creature (creature : Json) : Except PyErr Json :=
  scoreLookup creature "mem_write_ratio"

/-- `mem_ratio_written_of_creature`. -/
def mem_ratio_written_of_creature (creature : Json) : Except PyErr Json :=
  scoreLookup creature "mem_ratio_written"

/-- `code_coverage_of_creature`. -/
def code_coverage_of_creature (creature : Json) : Except PyErr Json :=
  scoreLookup creature "code_coverage"

/-- The filtered comprehension inside `fitness_scores_of_population`:
`[p['fitness']['cached_scalar'] for p in population
  if 'fitness' in p and 'cached_scalar' in p['fitness']]`. -/
def fitnessComp : List Json → Except PyErr (List Json)
  | [] => .ok []
  | p :: rest =>
    match pyIn "fitness" p with
    | .error e => .error e
    | .ok false => fitnessComp rest
    | .ok true =>
      match p.getItem "fitness" with
      | .error e => .error e
      | .ok fv =>
        match pyIn "cached_scalar" fv with
        | .error e => .error e
        | .ok false => fitnessComp rest
        | .ok true =>
          match p.getItem "fitness" with
          | .error e => .error e
          | .ok fv2 =>
            match fv2.getItem "cached_scalar" with
            | .error e => .error e
            | .ok v =>
              match fitnessComp rest with
              | .error e => .error e
              | .ok vs => .ok (v :: vs)

/-- `fitness_scores_of_population`: a string argument is first loaded as a
path, then the guarded comprehension collects the cached scalars. -/
def fitness_scores_of_population (fs : FS) (population : Json) :
    Except PyErr (List Json) :=
  let pop := match population with
    | .str s => load_population fs s
    | j => j
  match pyIter pop with
  | .error e => .error e
  | .ok cs => fitnessComp cs

/-- `generations_of_population`: same loading convention, then the unguarded
`[p['generation'] for p in population]`. -/
def generations_of_population (fs : FS) (population : Json) :
    Except PyErr (List Json) :=
  let pop := match population with
    | .str s => load_population fs s
    | j => j
  match pyIter pop with
  | .error e => .error e
  | .ok cs => mapE generation_of_creature cs

/-- `build_dataframe`: load the file, run both extractors over every creature
(first column fully, then the second), build the two-column frame. -/
def build_dataframe (fs : FS) (path n1 n2 : String)
    (f1 f2 : Json → Except PyErr Json) : Except PyErr DataFrame :=
  match pyIter (load_population fs path) with
  | .error e => .error e
  | .ok cs =>
    match mapE f1 cs with
    | .error e => .error e
    | .ok col1 =>
      match mapE f2 cs with
      | .error e => .error e
      | .ok col2 => mkDataFrame2 n1 col1 n2 col2

/-- `dataframe_for_dir`: one frame per file of the directory, folded together
with `pd.DataFrame.append` by an initial-value-less `functools.reduce`. -/
def dataframe_for_dir (fs : FS) (directory n1 n2 : String)
    (f1 f2 : Json → Except PyErr Json) : Except PyErr DataFrame :=
  match files fs directory with
  | .error e => .error e
  | .ok fls =>
    match mapE (fun p => build_dataframe fs p n1 n2 f1 f2) fls with
    | .error e => .error e
    | .ok dfs => reduce1 DataFrame.appendDF dfs

/-- `dataframe_for_dirs`: one frame per directory, folded the same way. (The
`print` of the directory list is omitted: no claim concerns it.) -/
def dataframe_for_dirs (fs : FS) (pop_dirs : List String) (n1 n2 : String)
    (f1 f2 : Json → Except PyErr Json) : Except PyErr DataFrame :=
  match mapE (fun d => dataframe_for_dir fs d n1 n2 f1 f2) pop_dirs with
  | .error e => .error e
  | .ok dfs => reduce1 DataFrame.appendDF dfs

/-- The module-level names bound by the file's import statements
(`import functools as ft`, `gzip`, `joypy`, `json`, `os`,
`import pandas as pd`, `import seaborn as sns`). `glob` is not among them. -/
def moduleNames : List String :=
  ["ft", "gzip", "joypy", "json", "os", "pd", "sns"]

/-- Python name resolution for a module-level global: `some` when the import
list binds the name, `none` (a `NameError` at use) otherwise. -/
def resolveModule (n : String) : Option String :=
  if moduleNames.contains n then some n else none

/-- `population_dirs`: evaluates `glob.glob(...)`, so it first resolves the
global `glob`; the glob call itself is abstracted as the parameter `globFn`. -/
def population_dirs (globFn : String → List String) (pop_name : String)
    (island : Option Int) : Except PyErr (List String) :=
  match resolveModule "glob" with
  | none => .error (.nameError "glob")
  | some _ =>
    match island with
    | none => .ok (globFn (pop_name ++ "/island_*/population"))
    | some i => .ok (globFn (pop_name ++ "/island_" ++ toString i ++ "/population"))

/-- `dataframe_for_population`: `glob.glob` on the island pattern, then
`dataframe_for_dirs`. -/
def dataframe_for_population (globFn : String → List String) (fs : FS)
    (pop_name n1 n2 : String) (f1 f2 : Json → Except PyErr Json) :
    Except PyErr DataFrame :=
  match resolveModule "glob" with
  | none => .error (.nameError "glob")
  | some _ =>
    dataframe_for_dirs fs (globFn (pop_name ++ "/island_*/population")) n1 n2 f1 f2

/-- `get_champions_for_population`: `glob.glob` on the champions pattern, then
`load_population` over every match. -/
def get_champions_for_population (globFn : String → List String) (fs : FS)
    (population : String) : Except PyErr (List Json) :=
  match resolveModule "glob" with
  | none => .error (.nameError "glob")
  | some _ =>
    .ok ((globFn (population ++ "/island_*/champions/champion*.json.gz")).map
      (fun c => load_population fs c))

/-- Spec-side description of the optional fitness field: the stored
`fitness.cached_scalar` value when both keys exist, absent otherwise. -/
def specFitness (c : Json) : Option Json :=
  match c with
  | .obj fields =>
    match fields.find? (fun p => p.1 == "fitness") with
    | some (_, .obj f2) =>
      match f2.find? (fun q => q.1 == "cached_scalar") with
      | some q => some q.2
      | none => none
    | _ => none
  | _ => none

/-- A creature record in the shape the spec's data model describes: a mapping
whose `fitness` value, when present, is itself a mapping. -/
def isRecord (c : Json) : Bool :=
  match c with
  | .obj fields =>
    match fields.find? (fun p => p.1 == "fitness") with
    | some (_, .obj _) => true
    | some _ => false
    | none => true
  | _ => false

/-- A filesystem on which every read fails (used by witnesses). -/
def fsFailW : FS :=
  ⟨fun _ => none, fun _ => .error (.ioError "no such file")⟩

/-- A filesystem whose directories are all empty (used by witnesses). -/
def fsEmptyW : FS :=
  ⟨fun _ => some [], fun _ => .error (.ioError "no such file")⟩

/-! ## Helper lemmas -/

theorem any_false_of_find?_none {fields : List (String × Json)} {k : String}
    (h : fields.find? (fun p => p.1 == k) = none) :
    fields.any (fun p => p.1 == k) = false := by
  cases hap : fields.any (fun p => p.1 == k) with
  | false => rfl
  | true =>
    obtain ⟨p, hp, hpk⟩ := List.any_eq_true.mp hap
    rw [List.find?_eq_none] at h
    exact absurd hpk (h p hp)

theorem any_true_of_find?_some {fields : List (String × Json)} {k : String}
    {p : String × Json} (h : fields.find? (fun q => q.1 == k) = some p) :
    fields.any (fun q => q.1 == k) = true := by
  have hpk := List.find?_some (p := fun q : String × Json => q.1 == k) h
  exact List.any_eq_true.mpr ⟨p, List.mem_of_find?_eq_some h, hpk⟩

/-- On a well-shaped record the guarded fitness lookup takes one of three
paths: no `fitness` key, a `fitness` dict without `cached_scalar`, or the
full path; `specFitness` is absent in the first two and the stored value in
the third. -/
theorem record_cases (c : Json) (h : isRecord c = true) :
    (pyIn "fitness" c = .ok false ∧ specFitness c = none) ∨
    (∃ fv, pyIn "fitness" c = .ok true ∧ c.getItem "fitness" = .ok fv ∧
      ((pyIn "cached_scalar" fv = .ok false ∧ specFitness c = none) ∨
       (∃ v, pyIn "cached_scalar" fv = .ok true ∧
         fv.getItem "cached_scalar" = .ok v ∧ specFitness c = some v))) := by
  cases c with
  | obj fields =>
    cases hf : fields.find? (fun p => p.1 == "fitness") with
    | none =>
      exact Or.inl ⟨by simp [pyIn, any_false_of_find?_none hf],
        by simp [specFitness, hf]⟩
    | some pr =>
      obtain ⟨k, v⟩ := pr
      cases v with
      | obj f2 =>
        refine Or.inr ⟨Json.obj f2, by simp [pyIn, any_true_of_find?_some hf],
          by simp [Json.getItem, hf], ?_⟩
        cases hg : f2.find? (fun q => q.1 == "cached_scalar") with
        | none =>
          exact Or.inl ⟨by simp [pyIn, any_false_of_find?_none hg],
            by simp [specFitness, hf, hg]⟩
        | some q =>
          exact Or.inr ⟨q.2, by simp [pyIn, any_true_of_find?_some hg],
            by simp [Json.getItem, hg], by simp [specFitness, hf, hg]⟩
      | null => simp [isRecord, hf] at h
      | bool b => simp [isRecord, hf] at h
      | num q => simp [isRecord, hf] at h
      | str s => simp [isRecord, hf] at h
      | arr xs => simp [isRecord, hf] at h
  | null => simp [isRecord] at h
  | bool b => simp [isRecord] at h
  | num q => simp [isRecord] at h
  | str s => simp [isRecord] at h
  | arr xs => simp [isRecord] at h

/-- On a well-shaped record `fitness_of_creature` returns `specFitness`
defaulted to `null`, and never raises. -/
theorem fitness_branch (c : Json) (h : isRecord c = true) :
    fitness_of_creature c = .ok ((specFitness c).getD Json.null) := by
  rcases record_cases c h with ⟨h1, hs⟩ | ⟨fv, h1, h2, ⟨h3, hs⟩ | ⟨v, h3, h4, hs⟩⟩
  · simp [fitness_of_creature, h1, hs]
  · simp [fitness_of_creature, h1, h2, h3, hs]
  · simp [fitness_of_creature, h1, h2, h3, h4, hs]

/-- On a list of well-shaped records the guarded comprehension of
`fitness_scores_of_population` succeeds and keeps exactly the present
`specFitness` values, in order. -/
theorem fitnessComp_records (cs : List Json) (h : ∀ c ∈ cs, isRecord c = true) :
    fitnessComp cs = .ok (cs.filterMap specFitness) := by
  induction cs with
  | nil => simp [fitnessComp]
  | cons p rest ih =>
    have hrest := ih (fun c hc => h c (List.mem_cons_of_mem p hc))
    rcases record_cases p (h p (List.mem_cons_self p rest)) with
      ⟨h1, hs⟩ | ⟨fv, h1, h2, ⟨h3, hs⟩ | ⟨v, h3, h4, hs⟩⟩
    · simp [fitnessComp, h1, hrest, List.filterMap_cons, hs]
    · simp [fitnessComp, h1, h2, h3, hrest, List.filterMap_cons, hs]
    · simp [fitnessComp, h1, h2, h3, h4, hrest, List.filterMap_cons, hs]

/-- C2: for every well-shaped record, the fitness extractor never raises:
when the `fitness.cached_scalar` path is incomplete it returns Python's
`None` (which is not the number zero), and when both keys exist it returns
the stored value. -/
theorem fitness_of_creature_optional (c : Json) (h : isRecord c = true) :
    (specFitness c = none → fitness_of_creature c = .ok Json.null) ∧
    (∀ v, specFitness c = some v → fitness_of_creature c = .ok v) ∧
    Json.null ≠ Json.num 0 := by
  refine ⟨?_, ?_, fun hEq => Json.noConfusion hEq⟩
  · intro hs
    rw [fitness_branch c h, hs]
    rfl
  · intro v hs
    rw [fitness_branch c h, hs]
    rfl

theorem fitness_of_creature_optional_witness :
    fitness_of_creature (Json.obj [("generation", Json.num 1)]) = .ok Json.null ∧
    fitness_of_creature
        (Json.obj [("fitness", Json.obj [("cached_scalar", Json.num 5)])]) =
      .ok (Json.num 5) :=
  ⟨(fitness_of_creature_optional (Json.obj [("generation", Json.num 1)]) rfl).1 rfl,
   (fitness_of_creature_optional
     (Json.obj [("fitness", Json.obj [("cached_scalar", Json.num 5)])]) rfl).2.1
     (Json.num 5) rfl⟩

/-- C10: on a sequence of well-shaped records, `fitness_scores_of_population`
keeps exactly the cached scalars of the records that carry the full path, in
original order, silently skipping the rest — so the result can be shorter
than the population, whereas the per-creature extractor yields one (possibly
`None`) value per record. -/
theorem fitness_scores_skip_missing (fs : FS) (cs : List Json)
    (h : ∀ c ∈ cs, isRecord c = true) :
    fitness_scores_of_population fs (Json.arr cs) =
      .ok (cs.filterMap specFitness) ∧
    (cs.filterMap specFitness).length ≤ cs.length ∧
    ∀ c ∈ cs, fitness_of_creature c = .ok ((specFitness c).getD Json.null) := by
  refine ⟨?_, List.length_filterMap_le specFitness cs,
    fun c hc => fitness_branch c (h c hc)⟩
  simp [fitness_scores_of_population, pyIter, fitnessComp_records cs h]

theorem fitness_scores_skip_missing_witness :
    fitness_scores_of_population fsFailW
        (Json.arr [Json.obj [("fitness", Json.obj [("cached_scalar", Json.num 7)])],
                   Json.obj [("generation", Json.num 4)]]) =
      .ok [Json.num 7] :=
  (fitness_scores_skip_missing fsFailW
    [Json.obj [("fitness", Json.obj [("cached_scalar", Json.num 7)])],
     Json.obj [("generation", Json.num 4)]]
    (by
      intro c hc
      rcases List.mem_cons.mp hc with rfl | hc2
      · rfl
      · rcases List.mem_cons.mp hc2 with rfl | hc3
        · rfl
        · cases hc3)).1

/-- C6: the three sub-score extractors perform the unguarded lookup
`creature['fitness']['scores'][leaf]`: whichever key of the path is missing
first raises `KeyError` for that key, and when the full path exists each
returns the stored scalar. -/
theorem score_extractors_unguarded (f0 : List (String × Json)) :
    (f0.find? (fun p => p.1 == "fitness") = none →
      mem_write_ratio_of_creature (Json.obj f0) = .error (.keyError "fitness") ∧
      mem_ratio_written_of_creature (Json.obj f0) = .error (.keyError "fitness") ∧
      code_coverage_of_creature (Json.obj f0) = .error (.keyError "fitness")) ∧
    (∀ k1 f1, f0.find? (fun p => p.1 == "fitness") = some (k1, Json.obj f1) →
      f1.find? (fun q => q.1 == "scores") = none →
      mem_write_ratio_of_creature (Json.obj f0) = .error (.keyError "scores") ∧
      mem_ratio_written_of_creature (Json.obj f0) = .error (.keyError "scores") ∧
      code_coverage_of_creature (Json.obj f0) = .error (.keyError "scores")) ∧
    (∀ k1 f1 k2 f2, f0.find? (fun p => p.1 == "fitness") = some (k1, Json.obj f1) →
      f1.find? (fun q => q.1 == "scores") = some (k2, Json.obj f2) →
      (f2.find? (fun r => r.1 == "mem_write_ratio") = none →
        mem_write_ratio_of_creature (Json.obj f0) =
          .error (.keyError "mem_write_ratio")) ∧
      (∀ p, f2.find? (fun r => r.1 == "mem_write_ratio") = some p →
        mem_write_ratio_of_creature (Json.obj f0) = .ok p.2) ∧
      (f2.find? (fun r => r.1 == "mem_ratio_written") = none →
        mem_ratio_written_of_creature (Json.obj f0) =
          .error (.keyError "mem_ratio_written")) ∧
      (∀ p, f2.find? (fun r => r.1 == "mem_ratio_written") = some p →
        mem_ratio_written_of_creature (Json.obj f0) = .ok p.2) ∧
      (f2.find? (fun r => r.1 == "code_coverage") = none →
        code_coverage_of_creature (Json.obj f0) =
          .error (.keyError "code_coverage")) ∧
      (∀ p, f2.find? (fun r => r.1 == "code_coverage") = some p →
        code_coverage_of_creature (Json.obj f0) = .ok p.2)) := by
  refine ⟨?_, ?_, ?_⟩
  · intro h
    refine ⟨?_, ?_, ?_⟩ <;>
      simp [mem_write_ratio_of_creature, mem_ratio_written_of_creature,
        code_coverage_of_creature, scoreLookup, Json.getItem, h]
  · intro k1 f1 h1 h2
    refine ⟨?_, ?_, ?_⟩ <;>
      simp [mem_write_ratio_of_creature, mem_ratio_written_of_creature,
        code_coverage_of_creature, scoreLookup, Json.getItem, h1, h2]
  · intro k1 f1 k2 f2 h1 h2
    refine ⟨?_, ?_, ?_, ?_, ?_, ?_⟩ <;> first
      | (intro h3
         simp [mem_write_ratio_of_creature, mem_ratio_written_of_creature,
           code_coverage_of_creature, scoreLookup, Json.getItem, h1, h2, h3])
      | (intro p h3
         simp [mem_write_ratio_of_creature, mem_ratio_written_of_creature,
           code_coverage_of_creature, scoreLookup, Json.getItem, h1, h2, h3])

/-- A record carrying the full sub-score path (used by the C6 witness). -/
def scoresRecW : List (String × Json) :=
  [("fitness", Json.obj [("scores",
    Json.obj [("mem_write_ratio", Json.num 1), ("mem_ratio_written", Json.num 2),
              ("code_coverage", Json.num 3)])])]

theorem score_extractors_unguarded_witness :
    mem_write_ratio_of_creature (Json.obj []) = .error (.keyError "fitness") ∧
    mem_write_ratio_of_creature (Json.obj scoresRecW) = .ok (Json.num 1) ∧
    mem_ratio_written_of_creature (Json.obj scoresRecW) = .ok (Json.num 2) ∧
    code_coverage_of_creature (Json.obj scoresRecW) = .ok (Json.num 3) := by
  have h0 := (score_extractors_unguarded []).1 rfl
  have h1 := (score_extractors_unguarded scoresRecW).2.2 "fitness"
    [("scores", Json.obj [("mem_write_ratio", Json.num 1),
      ("mem_ratio_written", Json.num 2), ("code_coverage", Json.num 3)])]
    "scores"
    [("mem_write_ratio", Json.num 1), ("mem_ratio_written", Json.num 2),
     ("code_coverage", Json.num 3)]
    rfl rfl
  exact ⟨h0.1, h1.2.1 ("mem_write_ratio", Json.num 1) rfl,
    h1.2.2.2.1 ("mem_ratio_written", Json.num 2) rfl,
    h1.2.2.2.2.2 ("code_coverage", Json.num 3) rfl⟩

theorem mapE_ok {α β : Type} (f : α → Except PyErr β) (g : α → β)
    (xs : List α) (h : ∀ x ∈ xs, f x = .ok (g x)) :
    mapE f xs = .ok (xs.map g) := by
  induction xs with
  | nil => rfl
  | cons x xs ih =>
    have hx := h x (List.mem_cons_self x xs)
    have hxs := ih (fun y hy => h y (List.mem_cons_of_mem x hy))
    simp [mapE, hx, hxs]

/-- `pd.DataFrame.append` on two frames sharing the same two distinct column
names is columnwise concatenation, names preserved. -/
theorem appendDF_two (n1 n2 : String) (hne : n1 ≠ n2) (a1 a2 b1 b2 : List Json) :
    DataFrame.appendDF ⟨[(n1, a1), (n2, a2)]⟩ ⟨[(n1, b1), (n2, b2)]⟩ =
      ⟨[(n1, a1 ++ b1), (n2, a2 ++ b2)]⟩ := by
  have h12 : (n1 == n2) = false := beq_eq_false_iff_ne.mpr hne
  have h21 : (n2 == n1) = false := beq_eq_false_iff_ne.mpr (Ne.symm hne)
  simp [DataFrame.appendDF, DataFrame.getCol, List.find?, h12, h21]

/-- Folding `append` over frames that all share the same two-column schema
concatenates the columns in fold order. -/
theorem foldl_appendDF {α : Type} (n1 n2 : String) (hne : n1 ≠ n2)
    (g1 g2 : α → List Json) (ps : List α) :
    ∀ a1 a2 : List Json,
      List.foldl DataFrame.appendDF ⟨[(n1, a1), (n2, a2)]⟩
          (ps.map (fun p => ⟨[(n1, g1 p), (n2, g2 p)]⟩)) =
        ⟨[(n1, a1 ++ (ps.map g1).flatten), (n2, a2 ++ (ps.map g2).flatten)]⟩ := by
  induction ps with
  | nil => intro a1 a2; simp
  | cons p ps ih =>
    intro a1 a2
    simp only [List.map_cons, List.foldl_cons, appendDF_two n1 n2 hne]
    rw [ih (a1 ++ g1 p) (a2 ++ g2 p)]
    simp [List.flatten_cons, List.append_assoc]

/-- When the file loads as a record array and both extractors succeed
everywhere, `build_dataframe` yields the two mapped columns. -/
theorem build_dataframe_ok (fs : FS) (path n1 n2 : String) (hne : n1 ≠ n2)
    (f1 f2 : Json → Except PyErr Json) (g1 g2 : Json → Json)
    (hf1 : ∀ c, f1 c = .ok (g1 c)) (hf2 : ∀ c, f2 c = .ok (g2 c))
    (recs : List Json) (hload : load_population fs path = .arr recs) :
    build_dataframe fs path n1 n2 f1 f2 =
      .ok ⟨[(n1, recs.map g1), (n2, recs.map g2)]⟩ := by
  have h1 := mapE_ok f1 g1 recs (fun c _ => hf1 c)
  have h2 := mapE_ok f2 g2 recs (fun c _ => hf2 c)
  simp [build_dataframe, hload, pyIter, h1, h2, mkDataFrame2, hne]

theorem dataframe_for_dir_eq (fs : FS) (d n1 n2 : String)
    (f1 f2 : Json → Except PyErr Json) (fls : List String)
    (dfs : List DataFrame) (h1 : files fs d = .ok fls)
    (h2 : mapE (fun p => build_dataframe fs p n1 n2 f1 f2) fls = .ok dfs) :
    dataframe_for_dir fs d n1 n2 f1 f2 = reduce1 DataFrame.appendDF dfs := by
  simp [dataframe_for_dir, h1, h2]

/-- The per-directory assembly: with a non-empty file listing, every file a
record array and total extractors, the result is the in-order concatenation
of the per-file record lists, mapped by each extractor. -/
theorem dataframe_for_dir_ok (fs : FS) (d n1 n2 : String) (hne : n1 ≠ n2)
    (f1 f2 : Json → Except PyErr Json) (g1 g2 : Json → Json)
    (hf1 : ∀ c, f1 c = .ok (g1 c)) (hf2 : ∀ c, f2 c = .ok (g2 c))
    (names : List String) (hls : fs.listing d = some names) (hnn : names ≠ [])
    (recs : String → List Json)
    (hload : ∀ n ∈ names,
      load_population fs (pyJoin d n) = .arr (recs (pyJoin d n))) :
    dataframe_for_dir fs d n1 n2 f1 f2 =
      .ok ⟨[(n1, ((names.map (fun n => recs (pyJoin d n))).flatten).map g1),
            (n2, ((names.map (fun n => recs (pyJoin d n))).flatten).map g2)]⟩ := by
  have hfiles : files fs d = .ok (names.map (fun f => pyJoin d f)) := by
    simp [files, hls]
  have hbuild : ∀ p ∈ names.map (fun f => pyJoin d f),
      build_dataframe fs p n1 n2 f1 f2 =
        .ok (⟨[(n1, (recs p).map g1), (n2, (recs p).map g2)]⟩ : DataFrame) := by
    intro p hp
    obtain ⟨n, hn, rfl⟩ := List.mem_map.mp hp
    exact build_dataframe_ok fs (pyJoin d n) n1 n2 hne f1 f2 g1 g2 hf1 hf2
      (recs (pyJoin d n)) (hload n hn)
  have hmap := mapE_ok (fun p => build_dataframe fs p n1 n2 f1 f2)
    (fun p => (⟨[(n1, (recs p).map g1), (n2, (recs p).map g2)]⟩ : DataFrame))
    (names.map (fun f => pyJoin d f)) hbuild
  rw [dataframe_for_dir_eq fs d n1 n2 f1 f2 (names.map (fun f => pyJoin d f))
    _ hfiles hmap]
  obtain ⟨n0, ns, rfl⟩ := List.exists_cons_of_ne_nil hnn
  simp only [List.map_cons, reduce1]
  rw [foldl_appendDF n1 n2 hne (fun p => (recs p).map g1)
    (fun p => (recs p).map g2) (ns.map (fun f => pyJoin d f))
    ((recs (pyJoin d n0)).map g1) ((recs (pyJoin d n0)).map g2)]
  simp [List.map_flatten, List.map_map, Function.comp_def]

/-- C3: over a directory whose listing has `k ≥ 1` files, file `i` holding
`nᵢ` records, the assembled table has the two given column names, its rows
are in file-enumeration order and record order within each file, and its row
count is `Σ nᵢ`. -/
theorem dataframe_for_dir_rowcount (fs : FS) (d n1 n2 : String) (hne : n1 ≠ n2)
    (f1 f2 : Json → Except PyErr Json) (g1 g2 : Json → Json)
    (hf1 : ∀ c, f1 c = .ok (g1 c)) (hf2 : ∀ c, f2 c = .ok (g2 c))
    (names : List String) (hls : fs.listing d = some names) (hnn : names ≠ [])
    (recs : String → List Json)
    (hload : ∀ n ∈ names,
      load_population fs (pyJoin d n) = .arr (recs (pyJoin d n))) :
    dataframe_for_dir fs d n1 n2 f1 f2 =
      .ok ⟨[(n1, ((names.map (fun n => recs (pyJoin d n))).flatten).map g1),
            (n2, ((names.map (fun n => recs (pyJoin d n))).flatten).map g2)]⟩ ∧
    (((names.map (fun n => recs (pyJoin d n))).flatten).map g1).length =
      (names.map (fun n => (recs (pyJoin d n)).length)).sum := by
  refine ⟨dataframe_for_dir_ok fs d n1 n2 hne f1 f2 g1 g2 hf1 hf2
    names hls hnn recs hload, ?_⟩
  rw [List.length_map, List.length_flatten]
  simp [List.map_map, Function.comp_def]

/-- A two-file directory for the C3 witness. -/
def fsDirW : FS :=
  ⟨fun d => if d = "pop" then some ["a", "b"] else none,
   fun p =>
     if p = "pop/a" then .ok (.arr [Json.num 1])
     else if p = "pop/b" then .ok (.arr [Json.num 2, Json.num 3])
     else .error (.ioError "missing")⟩

/-- The record lists of `fsDirW`, keyed by path. -/
def recsDirW (p : String) : List Json :=
  if p = "pop/a" then [Json.num 1] else [Json.num 2, Json.num 3]

theorem dataframe_for_dir_rowcount_witness :
    dataframe_for_dir fsDirW "pop" "c1" "c2" (fun c => .ok c) (fun c => .ok c) =
      .ok ⟨[("c1", [Json.num 1, Json.num 2, Json.num 3]),
            ("c2", [Json.num 1, Json.num 2, Json.num 3])]⟩ ∧
    ((((["a", "b"]).map (fun n => recsDirW (pyJoin "pop" n))).flatten).map id).length =
      ((["a", "b"]).map (fun n => (recsDirW (pyJoin "pop" n)).length)).sum := by
  have h := dataframe_for_dir_rowcount fsDirW "pop" "c1" "c2"
    (by decide)
    (fun c => .ok c) (fun c => .ok c) id id (fun c => rfl) (fun c => rfl)
    ["a", "b"] rfl (by decide) recsDirW
    (by
      intro n hn
      rcases List.mem_cons.mp hn with rfl | hn2
      · rfl
      · rcases List.mem_cons.mp hn2 with rfl | hn3
        · rfl
        · cases hn3)
  exact ⟨by rw [h.1]; rfl, h.2⟩

/-- The concrete two-file scenario for C4. -/
def fsScenario : FS :=
  ⟨fun d => if d = "pop" then some ["a.json.gz", "b.json.gz"] else none,
   fun p =>
     if p = "pop/a.json.gz" then
       .ok (.arr [Json.obj [("generation", Json.num 1),
                            ("fitness", Json.obj [("cached_scalar",
                              Json.num (1 / 2))])]])
     else if p = "pop/b.json.gz" then
       .ok (.arr [Json.obj [("generation", Json.num 2)]])
     else .error (.ioError "missing")⟩

/-- C4: on a directory enumerating the file `[{"generation":1,"fitness":
{"cached_scalar":0.5}}]` first and the file `[{"generation":2}]` second, the
(generation, fitness) extraction yields exactly the rows `(1, 0.5)` then
`(2, None)`. -/
theorem two_file_scenario :
    dataframe_for_dir fsScenario "pop" "generation" "fitness"
        generation_of_creature fitness_of_creature =
      .ok ⟨[("generation", [Json.num 1, Json.num 2]),
            ("fitness", [Json.num (1 / 2), Json.null])]⟩ := by
  rfl

/-- C7: concatenation over the per-file tables of each directory and over the
per-directory tables never drops, duplicates or reorders a row: the global
table's columns are exactly the extractors mapped over the in-order
concatenation of all record lists (directory order, then file order, then
record order), under the two given column names, and the two columns have
equal length. -/
theorem dataframe_for_dirs_eq (fs : FS) (ds : List String) (n1 n2 : String)
    (f1 f2 : Json → Except PyErr Json) (dfs : List DataFrame)
    (h : mapE (fun d => dataframe_for_dir fs d n1 n2 f1 f2) ds = .ok dfs) :
    dataframe_for_dirs fs ds n1 n2 f1 f2 = reduce1 DataFrame.appendDF dfs := by
  simp [dataframe_for_dirs, h]

theorem dataframe_concat_preserves_rows (fs : FS) (ds : List String)
    (n1 n2 : String) (hne : n1 ≠ n2) (hds : ds ≠ [])
    (f1 f2 : Json → Except PyErr Json) (g1 g2 : Json → Json)
    (hf1 : ∀ c, f1 c = .ok (g1 c)) (hf2 : ∀ c, f2 c = .ok (g2 c))
    (nms : String → List String) (recs : String → List Json)
    (hls : ∀ d ∈ ds, fs.listing d = some (nms d) ∧ nms d ≠ [])
    (hload : ∀ d ∈ ds, ∀ n ∈ nms d,
      load_population fs (pyJoin d n) = .arr (recs (pyJoin d n))) :
    dataframe_for_dirs fs ds n1 n2 f1 f2 =
      .ok ⟨[(n1, ((ds.map (fun d =>
              ((nms d).map (fun n => recs (pyJoin d n))).flatten)).flatten).map g1),
            (n2, ((ds.map (fun d =>
              ((nms d).map (fun n => recs (pyJoin d n))).flatten)).flatten).map g2)]⟩ ∧
    (((ds.map (fun d =>
        ((nms d).map (fun n => recs (pyJoin d n))).flatten)).flatten).map g1).length =
      (((ds.map (fun d =>
        ((nms d).map (fun n => recs (pyJoin d n))).flatten)).flatten).map g2).length := by
  have hdir : ∀ d ∈ ds,
      dataframe_for_dir fs d n1 n2 f1 f2 =
        .ok (⟨[(n1, (((nms d).map (fun n => recs (pyJoin d n))).flatten).map g1),
               (n2, (((nms d).map (fun n => recs (pyJoin d n))).flatten).map g2)]⟩ :
          DataFrame) := by
    intro d hd
    exact dataframe_for_dir_ok fs d n1 n2 hne f1 f2 g1 g2 hf1 hf2
      (nms d) (hls d hd).1 (hls d hd).2 recs (hload d hd)
  have hmap := mapE_ok (fun d => dataframe_for_dir fs d n1 n2 f1 f2)
    (fun d => (⟨[(n1, (((nms d).map (fun n => recs (pyJoin d n))).flatten).map g1),
                 (n2, (((nms d).map (fun n => recs (pyJoin d n))).flatten).map g2)]⟩ :
      DataFrame)) ds hdir
  constructor
  · rw [dataframe_for_dirs_eq fs ds n1 n2 f1 f2 _ hmap]
    obtain ⟨d0, dr, rfl⟩ := List.exists_cons_of_ne_nil hds
    simp only [List.map_cons, reduce1]
    rw [foldl_appendDF n1 n2 hne
      (fun d => (((nms d).map (fun n => recs (pyJoin d n))).flatten).map g1)
      (fun d => (((nms d).map (fun n => recs (pyJoin d n))).flatten).map g2) dr
      ((((nms d0).map (fun n => recs (pyJoin d0 n))).flatten).map g1)
      ((((nms d0).map (fun n => recs (pyJoin d0 n))).flatten).map g2)]
    simp [List.map_flatten, List.map_map, Function.comp_def]
  · rw [List.length_map, List.length_map]

/-- A two-directory filesystem for the C7 witness. -/
def fsDirsW : FS :=
  ⟨fun d =>
     if d = "p1" then some ["a"] else if d = "p2" then some ["b"] else none,
   fun p =>
     if p = "p1/a" then .ok (.arr [Json.num 1])
     else if p = "p2/b" then .ok (.arr [Json.num 2])
     else .error (.ioError "missing")⟩

/-- The listings of `fsDirsW`, keyed by directory. -/
def nmsDirsW (d : String) : List String :=
  if d = "p1" then ["a"] else ["b"]

/-- The record lists of `fsDirsW`, keyed by path. -/
def recsDirsW (p : String) : List Json :=
  if p = "p1/a" then [Json.num 1] else [Json.num 2]

theorem dataframe_concat_preserves_rows_witness :
    dataframe_for_dirs fsDirsW ["p1", "p2"] "c1" "c2"
        (fun c => .ok c) (fun c => .ok c) =
      .ok ⟨[("c1", [Json.num 1, Json.num 2]),
            ("c2", [Json.num 1, Json.num 2])]⟩ := by
  have h := dataframe_concat_preserves_rows fsDirsW ["p1", "p2"] "c1" "c2"
    (by decide) (by decide)
    (fun c => .ok c) (fun c => .ok c) id id (fun c => rfl) (fun c => rfl)
    nmsDirsW recsDirsW
    (by
      intro d hd
      rcases List.mem_cons.mp hd with rfl | hd2
      · exact ⟨rfl, by decide⟩
      · rcases List.mem_cons.mp hd2 with rfl | hd3
        · exact ⟨rfl, by decide⟩
        · cases hd3)
    (by
      intro d hd n hn
      rcases List.mem_cons.mp hd with rfl | hd2
      · rcases List.mem_cons.mp hn with rfl | hn2
        · rfl
        · cases hn2
      · rcases List.mem_cons.mp hd2 with rfl | hd3
        · rcases List.mem_cons.mp hn with rfl | hn2
          · rfl
          · cases hn2
        · cases hd3)
  rw [h.1]
  rfl

/-! ## Claim theorems (loader, reduce and glob) -/

/-- C1: whenever reading or parsing the gzip-compressed JSON file fails — for
any reason, folded into the single `.error` of `fs.read` — `load_population`
prints one diagnostic and returns the empty list; its return type is plain
`Json`, so no exception reaches the caller. -/
theorem load_population_swallows_failures (fs : FS) (path : String) (e : PyErr)
    (h : fs.read path = .error e) :
    load_population fs path = Json.arr [] ∧
    load_population_log fs path = [LogEvent.loadFailed path e] := by
  simp [load_population, load_population_log, h]

theorem load_population_swallows_failures_witness :
    load_population fsFailW "pop/island_0/population/0.json.gz" = Json.arr [] ∧
    load_population_log fsFailW "pop/island_0/population/0.json.gz" =
      [LogEvent.loadFailed "pop/island_0/population/0.json.gz"
        (PyErr.ioError "no such file")] :=
  load_population_swallows_failures fsFailW "pop/island_0/population/0.json.gz"
    (PyErr.ioError "no such file") rfl

/-- C5: `generation_of_creature` is an unguarded dict lookup: on a record
without a `generation` key it raises `KeyError`, and with the key it returns
the stored value. -/
theorem generation_of_creature_unguarded (fields : List (String × Json)) :
    (fields.find? (fun p => p.1 == "generation") = none →
      generation_of_creature (Json.obj fields) = .error (.keyError "generation")) ∧
    (∀ p, fields.find? (fun p => p.1 == "generation") = some p →
      generation_of_creature (Json.obj fields) = .ok p.2) := by
  constructor
  · intro h
    simp [generation_of_creature, Json.getItem, h]
  · intro p h
    simp [generation_of_creature, Json.getItem, h]

theorem generation_of_creature_unguarded_witness :
    generation_of_creature (Json.obj []) = .error (.keyError "generation") ∧
    generation_of_creature (Json.obj [("generation", Json.num 3)]) =
      .ok (Json.num 3) :=
  ⟨(generation_of_creature_unguarded []).1 rfl,
   (generation_of_creature_unguarded [("generation", Json.num 3)]).2
     ("generation", Json.num 3) rfl⟩

/-- C8: the module never imports `glob`, so `population_dirs`,
`dataframe_for_population` and `get_champions_for_population` all hit an
unresolvable global and raise `NameError` on every input. -/
theorem glob_unbound_name_error (globFn : String → List String) (fs : FS)
    (pop n1 n2 : String) (island : Option Int)
    (f1 f2 : Json → Except PyErr Json) :
    population_dirs globFn pop island = .error (.nameError "glob") ∧
    dataframe_for_population globFn fs pop n1 n2 f1 f2 =
      .error (.nameError "glob") ∧
    get_champions_for_population globFn fs pop = .error (.nameError "glob") :=
  ⟨rfl, rfl, rfl⟩

/-- C9: the per-file (and per-directory) frames are folded by
`functools.reduce` with no initial value, so a directory with no files — and
likewise an empty directory list — raises `TypeError` instead of yielding an
empty table. -/
theorem empty_reduce_raises (fs : FS) (d n1 n2 : String)
    (f1 f2 : Json → Except PyErr Json) :
    (fs.listing d = some [] →
      dataframe_for_dir fs d n1 n2 f1 f2 = .error .typeError) ∧
    dataframe_for_dirs fs [] n1 n2 f1 f2 = .error .typeError := by
  constructor
  · intro h
    simp [dataframe_for_dir, files, h, mapE, reduce1]
  · simp [dataframe_for_dirs, mapE, reduce1]

theorem empty_reduce_raises_witness :
    dataframe_for_dir fsEmptyW "d" "generation" "fitness"
      generation_of_creature fitness_of_creature = .error .typeError :=
  (empty_reduce_raises fsEmptyW "d" "generation" "fitness"
    generation_of_creature fitness_of_creature).1 rfl
